import Mathlib

/-!
Verification of the ratio-computation pipeline of an audit-opinion
prediction app (src/main.py).

Modelling conventions:
* A pandas cell is `NVal := Option ℚ`; `none` models NaN (a null value),
  `some q` a finite numeric value.  Numeric values are modelled by exact
  rationals, so the decimal coefficients of the scoring formulas are read
  exactly.
* All series operations of the source are elementwise, so every column
  operation is modelled at the level of a single row.  NaN propagates
  through addition, subtraction, negation and scalar multiplication, as in
  pandas.
* A dataframe row is `Row := String → Option NVal`; the outer `none` models
  an absent column (pandas raises a KeyError naming the column on access),
  `some v` a present cell whose value is `v` (possibly null).
* Fallible computations live in `Except String`; an uncaught pandas
  KeyError is modelled as `Except.error` carrying the KeyError message.
-/

namespace AuditApp

/-- A nullable numeric cell: `none` is NaN, `some q` a finite rational. -/
abbrev NVal : Type := Option ℚ

/-- Elementwise series addition; NaN propagates (pandas semantics). -/
def nadd : NVal → NVal → NVal
  | some a, some b => some (a + b)
  | _, _ => none

/-- Elementwise series subtraction; NaN propagates. -/
def nsub : NVal → NVal → NVal
  | some a, some b => some (a - b)
  | _, _ => none

/-- Elementwise series negation; NaN propagates. -/
def nneg : NVal → NVal
  | some a => some (-a)
  | none => none

/-- Multiplication of a series cell by a scalar constant; NaN propagates. -/
def nmulC (k : ℚ) : NVal → NVal
  | some a => some (k * a)
  | none => none

/-- Null-safe division, from safe_div in src/main.py (lines 49-56):
the denominator has 0 replaced by NaN, the quotient is taken (NaN
propagating from either operand), and finally every NaN result is
replaced by 0 by fillna(0).  Consequently the result is always non-null. -/
def safe_div (num denom : NVal) : NVal :=
  let denomReplaced : NVal :=
    match denom with
    | some d => if d = 0 then none else some d
    | none => none
  let result : NVal :=
    match num, denomReplaced with
    | some n, some d => some (n / d)
    | _, _ => none
  some (result.getD 0)

/-- A dataframe row: a mapping from column names to cells.  The outer
`none` models an absent column. -/
abbrev Row : Type := String → Option NVal

/-- Column access, modelling df[c]: a present column yields its cell, an
absent column raises KeyError naming the column. -/
def getCol (df : Row) (c : String) : Except String NVal :=
  match df c with
  | some v => Except.ok v
  | none => Except.error ("KeyError: " ++ c)

/-- The raw financial fields read by compute_ratios, one Lean field per
raw column of the input table (src/main.py lines 66-128). -/
structure RawRecord where
  donenVarliklar : NVal
  duranVarliklar : NVal
  kisaVadeliYuk : NVal
  uzunVadeliYuk : NVal
  stoklar : NVal
  digerDonenVarliklar : NVal
  nakit : NVal
  faaliyetKari : NVal
  satisGelirleri : NVal
  netFaaliyetKar : NVal
  brutKar : NVal
  donemNetKar : NVal
  ticariAlacaklar : NVal
  satislarinMaliyeti : NVal
  ticariBorclar : NVal
  toplamOzkaynaklar : NVal
  maddiDuranVarliklar : NVal
  maddiOlmayanDuran : NVal
  gecmisYillarKar : NVal
  surdurulenVergiOncesi : NVal
  finansmanGiderleri : NVal
  deriving DecidableEq, Repr

/-- The 21 raw column names compute_ratios reads, in order of first
access in the source. -/
def rawFieldNames : List String :=
  ["Dönen Varlıklar", "Duran Varlıklar", "Kısa Vadeli Yükümlülükler",
   "Uzun Vadeli Yükümlülükler", "Stoklar", "Diğer Dönen Varlıklar",
   "Nakit ve Nakit Benzerleri", "FAALİYET KARI (ZARARI)",
   "Satış Gelirleri", "Net Faaliyet Kar/Zararı",
   "Ticari Faaliyetlerden Brüt Kar (Zarar)", "Dönem Net Kar/Zararı",
   "Ticari Alacaklar", "Satışların Maliyeti (-)", "Ticari Borçlar",
   "Toplam Özkaynaklar", "Maddi Duran Varlıklar",
   "Maddi Olmayan Duran Varlıklar", "Geçmiş Yıllar Kar/Zararları",
   "SÜRDÜRÜLEN FAALİYETLER VERGİ ÖNCESİ KARI (ZARARI)",
   "Finansman Giderleri"]

/-- Read all raw columns compute_ratios uses, in the order of their first
access in the source; the first absent column aborts the computation with
its KeyError, exactly as the first failing df[c] access would. -/
def readRaw (df : Row) : Except String RawRecord := do
  let donen ← getCol df "Dönen Varlıklar"
  let duran ← getCol df "Duran Varlıklar"
  let kisa ← getCol df "Kısa Vadeli Yükümlülükler"
  let uzun ← getCol df "Uzun Vadeli Yükümlülükler"
  let stok ← getCol df "Stoklar"
  let diger ← getCol df "Diğer Dönen Varlıklar"
  let nakit ← getCol df "Nakit ve Nakit Benzerleri"
  let faaliyet ← getCol df "FAALİYET KARI (ZARARI)"
  let satis ← getCol df "Satış Gelirleri"
  let netFaaliyet ← getCol df "Net Faaliyet Kar/Zararı"
  let brut ← getCol df "Ticari Faaliyetlerden Brüt Kar (Zarar)"
  let donemNet ← getCol df "Dönem Net Kar/Zararı"
  let alacak ← getCol df "Ticari Alacaklar"
  let maliyet ← getCol df "Satışların Maliyeti (-)"
  let borclar ← getCol df "Ticari Borçlar"
  let ozkaynak ← getCol df "Toplam Özkaynaklar"
  let maddiDuran ← getCol df "Maddi Duran Varlıklar"
  let maddiOlmayan ← getCol df "Maddi Olmayan Duran Varlıklar"
  let gecmis ← getCol df "Geçmiş Yıllar Kar/Zararları"
  let surdurulen ← getCol df "SÜRDÜRÜLEN FAALİYETLER VERGİ ÖNCESİ KARI (ZARARI)"
  let finansman ← getCol df "Finansman Giderleri"
  return { donenVarliklar := donen, duranVarliklar := duran,
           kisaVadeliYuk := kisa, uzunVadeliYuk := uzun, stoklar := stok,
           digerDonenVarliklar := diger, nakit := nakit,
           faaliyetKari := faaliyet, satisGelirleri := satis,
           netFaaliyetKar := netFaaliyet, brutKar := brut,
           donemNetKar := donemNet, ticariAlacaklar := alacak,
           satislarinMaliyeti := maliyet, ticariBorclar := borclar,
           toplamOzkaynaklar := ozkaynak,
           maddiDuranVarliklar := maddiDuran,
           maddiOlmayanDuran := maddiOlmayan, gecmisYillarKar := gecmis,
           surdurulenVergiOncesi := surdurulen,
           finansmanGiderleri := finansman }

/-- Shared aggregate: total assets = current assets + fixed assets
(src/main.py line 66). -/
def total_assets (r : RawRecord) : NVal :=
  nadd r.donenVarliklar r.duranVarliklar

/-- Shared aggregate: total liabilities = short-term + long-term
liabilities (src/main.py line 67). -/
def total_liab (r : RawRecord) : NVal :=
  nadd r.kisaVadeliYuk r.uzunVadeliYuk

/-- Current ratio (line 70). -/
def cariOran (r : RawRecord) : NVal :=
  safe_div r.donenVarliklar r.kisaVadeliYuk

/-- Acid-test ratio (lines 71-72). -/
def asitTestOrani (r : RawRecord) : NVal :=
  safe_div (nsub (nsub r.donenVarliklar r.stoklar) r.digerDonenVarliklar)
    r.kisaVadeliYuk

/-- Cash ratio (line 73). -/
def nakitOrani (r : RawRecord) : NVal :=
  safe_div r.nakit r.kisaVadeliYuk

/-- Operating-profit margin (line 76). -/
def faaliyetKarMarji (r : RawRecord) : NVal :=
  safe_div (nmulC 100 r.faaliyetKari) r.satisGelirleri

/-- Core-operating margin (line 77). -/
def esasFaaliyetKarMarji (r : RawRecord) : NVal :=
  safe_div (nmulC 100 r.netFaaliyetKar) r.satisGelirleri

/-- Gross margin (line 78). -/
def brutKarMarji (r : RawRecord) : NVal :=
  safe_div (nmulC 100 r.brutKar) r.satisGelirleri

/-- Net margin (line 79). -/
def netKarMarji (r : RawRecord) : NVal :=
  safe_div (nmulC 100 r.donemNetKar) r.satisGelirleri

/-- EBITDA proxy over short-term debt (line 80). -/
def favokKisaVadeBorc (r : RawRecord) : NVal :=
  safe_div r.faaliyetKari r.kisaVadeliYuk

/-- Asset turnover (line 83). -/
def aktifDevirHizi (r : RawRecord) : NVal :=
  safe_div r.satisGelirleri (total_assets r)

/-- Receivables turnover (line 84). -/
def alacakDevirHizi (r : RawRecord) : NVal :=
  safe_div r.satisGelirleri r.ticariAlacaklar

/-- Current-assets turnover (line 85). -/
def donenVarliklarDevirHizi (r : RawRecord) : NVal :=
  safe_div r.donenVarliklar r.satisGelirleri

/-- Payables turnover, with the sign flip of line 86. -/
def ticariBorclarDevirHizi (r : RawRecord) : NVal :=
  nneg (safe_div r.satislarinMaliyeti r.ticariBorclar)

/-- Inventory turnover, with the sign flip of line 87. -/
def stokDevirHizi (r : RawRecord) : NVal :=
  nneg (safe_div r.satislarinMaliyeti r.stoklar)

/-- Debt-to-equity percentage (line 90). -/
def borcKaynakOrani (r : RawRecord) : NVal :=
  nmulC 100 (safe_div (total_liab r) r.toplamOzkaynaklar)

/-- Financial leverage percentage (line 91). -/
def finansalKaldirac (r : RawRecord) : NVal :=
  nmulC 100 (safe_div (total_liab r) (total_assets r))

/-- Equity over assets (line 92). -/
def ozsermayeAktif (r : RawRecord) : NVal :=
  safe_div r.toplamOzkaynaklar (total_assets r)

/-- Equity over tangible fixed assets (line 93). -/
def ozsermayeMaddiDuran (r : RawRecord) : NVal :=
  safe_div r.toplamOzkaynaklar r.maddiDuranVarliklar

/-- Fixed assets over tangible equity (lines 94-95). -/
def duranVarliklarMaddiOzkaynak (r : RawRecord) : NVal :=
  safe_div r.duranVarliklar (nsub r.toplamOzkaynaklar r.maddiOlmayanDuran)

/-- Fixed assets over assets, percentage (line 96). -/
def duranVarliklarAktif (r : RawRecord) : NVal :=
  safe_div (nmulC 100 r.duranVarliklar) (total_assets r)

/-- Current assets over assets, percentage (line 97). -/
def donenVarliklarAktif (r : RawRecord) : NVal :=
  safe_div (nmulC 100 r.donenVarliklar) (total_assets r)

/-- Short-term debt over assets (line 100). -/
def kisaVadeBorcAktif (r : RawRecord) : NVal :=
  safe_div r.kisaVadeliYuk (total_assets r)

/-- Short-term debt over current assets (line 101). -/
def kisaVadeBorcDonenVarlik (r : RawRecord) : NVal :=
  safe_div r.kisaVadeliYuk r.donenVarliklar

/-- Short-term debt over equity (line 102). -/
def kisaVadeBorcOzsermaye (r : RawRecord) : NVal :=
  safe_div r.kisaVadeliYuk r.toplamOzkaynaklar

/-- Short-term debt over total debt (line 103). -/
def kisaVadeBorcToplamBorc (r : RawRecord) : NVal :=
  safe_div r.kisaVadeliYuk (total_liab r)

/-- Net sales over short-term debt (line 104). -/
def netSatislarKisaVadeBorc (r : RawRecord) : NVal :=
  safe_div r.satisGelirleri r.kisaVadeliYuk

/-- Core operating profit over short-term debt (line 105). -/
def esasFaaliyetKariKisaVadeliBorc (r : RawRecord) : NVal :=
  safe_div r.netFaaliyetKar r.kisaVadeliYuk

/-- Return on assets, percentage (line 108). -/
def aktifKarlilik (r : RawRecord) : NVal :=
  safe_div (nmulC 100 r.donemNetKar) (total_assets r)

/-- ROCE proxy, percentage (line 109). -/
def roceOrani (r : RawRecord) : NVal :=
  safe_div (nmulC 100 r.faaliyetKari) (total_assets r)

/-- Financing expense over net sales (line 110). -/
def finansmanGiderNetSatis (r : RawRecord) : NVal :=
  safe_div r.finansmanGiderleri r.satisGelirleri

/-- Altman intermediate X1 (line 114). -/
def X1 (r : RawRecord) : NVal :=
  safe_div (nsub r.donenVarliklar r.kisaVadeliYuk) (total_assets r)

/-- Altman intermediate X2 (line 115). -/
def X2 (r : RawRecord) : NVal :=
  safe_div (nadd r.gecmisYillarKar r.donemNetKar) (total_assets r)

/-- Altman intermediate X3 (line 116). -/
def X3 (r : RawRecord) : NVal :=
  safe_div r.surdurulenVergiOncesi (total_assets r)

/-- Altman intermediate X4 (line 117). -/
def X4 (r : RawRecord) : NVal :=
  safe_div r.toplamOzkaynaklar (total_liab r)

/-- Altman intermediate X5 (line 118). -/
def X5 (r : RawRecord) : NVal :=
  safe_div r.satisGelirleri (total_assets r)

/-- Altman Z-score, line 119, with the decimal coefficients read exactly:
1.2 X1 + 1.4 X2 + 3.3 X3 + 0.6 X4 + X5, left associated as in the
source. -/
def altmanZSkoru (r : RawRecord) : NVal :=
  nadd (nadd (nadd (nadd (nmulC (12/10) (X1 r)) (nmulC (14/10) (X2 r)))
    (nmulC (33/10) (X3 r))) (nmulC (6/10) (X4 r))) (X5 r)

/-- Zmijewski intermediate Z1 (line 122). -/
def Z1 (r : RawRecord) : NVal :=
  safe_div r.donemNetKar (total_assets r)

/-- Zmijewski intermediate Z2 (line 123). -/
def Z2 (r : RawRecord) : NVal :=
  safe_div (total_liab r) (total_assets r)

/-- Zmijewski intermediate Z3 (line 124). -/
def Z3 (r : RawRecord) : NVal :=
  safe_div r.donenVarliklar r.kisaVadeliYuk

/-- Zmijewski score, line 125: -4.3 - 4.5 Z1 + 5.7 Z2 - 0.004 Z3, grouped
as in the source with the scalar -4.3 broadcast over the row. -/
def zmijewskiSkoru (r : RawRecord) : NVal :=
  nsub (nadd (nsub (some (-43/10 : ℚ)) (nmulC (45/10) (Z1 r)))
    (nmulC (57/10) (Z2 r))) (nmulC (4/1000) (Z3 r))

/-- L-model intermediate L6, a ratio of a ratio (line 128). -/
def L6 (r : RawRecord) : NVal :=
  safe_div (safe_div r.nakit r.kisaVadeliYuk) (total_liab r)

/-- L-model intermediate L7 (line 129). -/
def L7 (r : RawRecord) : NVal :=
  safe_div (total_liab r) (total_assets r)

/-- L-model score, lines 130-132: -0.113 X1 + 0.238 X2 - 0.052 X3
- 0.051 X4 + 0.011 X5 + 0.729 L6 - 0.639 L7, left associated as in the
source. -/
def lModelSkoru (r : RawRecord) : NVal :=
  nsub (nadd (nadd (nsub (nsub (nadd (nmulC (-113/1000) (X1 r))
    (nmulC (238/1000) (X2 r))) (nmulC (52/1000) (X3 r)))
    (nmulC (51/1000) (X4 r))) (nmulC (11/1000) (X5 r)))
    (nmulC (729/1000) (L6 r))) (nmulC (639/1000) (L7 r))

/-- The 32 derived column values compute_ratios assigns, keyed by column
name; the names and formulas follow lines 70-132 of src/main.py in
assignment order, and `none` is returned for every other name. -/
def derivedLookup (r : RawRecord) (c : String) : Option NVal :=
  if c = "Cari Oran" then some (cariOran r)
  else if c = "Asit Test Oranı" then some (asitTestOrani r)
  else if c = "Nakit Oranı" then some (nakitOrani r)
  else if c = "Faaliyet Kar Marjı" then some (faaliyetKarMarji r)
  else if c = "Esas Faaliyet Kar Marjı" then some (esasFaaliyetKarMarji r)
  else if c = "Brüt Kar Marjı (%)" then some (brutKarMarji r)
  else if c = "Net Kar Marjı" then some (netKarMarji r)
  else if c = "FAVÖK / Kısa Vade Borç" then some (favokKisaVadeBorc r)
  else if c = "Aktif Devir Hızı" then some (aktifDevirHizi r)
  else if c = "Alacak Devir Hızı" then some (alacakDevirHizi r)
  else if c = "Dönen Varlıklar Devir Hızı" then some (donenVarliklarDevirHizi r)
  else if c = "Ticari Borçlar Devir Hızı" then some (ticariBorclarDevirHizi r)
  else if c = "Stok Devir Hızı" then some (stokDevirHizi r)
  else if c = "Borç Kaynak Oranı" then some (borcKaynakOrani r)
  else if c = "Finansal Kaldıraç" then some (finansalKaldirac r)
  else if c = "Özsermaye / Aktif" then some (ozsermayeAktif r)
  else if c = "Özsermaye / Maddi Duran Varlıklar" then some (ozsermayeMaddiDuran r)
  else if c = "Duran Varlıklar / Maddi Özkaynak" then some (duranVarliklarMaddiOzkaynak r)
  else if c = "Duran Varlıklar / Aktif " then some (duranVarliklarAktif r)
  else if c = "Dönen Varlıklar / Aktif (%)" then some (donenVarliklarAktif r)
  else if c = "Kısa Vade Borç / Aktif" then some (kisaVadeBorcAktif r)
  else if c = "Kısa Vade Borç / Dönen Varlık" then some (kisaVadeBorcDonenVarlik r)
  else if c = "Kısa Vade Borç / Özsermaye" then some (kisaVadeBorcOzsermaye r)
  else if c = "Kısa Vade Borç / Toplam Borç" then some (kisaVadeBorcToplamBorc r)
  else if c = "Net Satışlar / Kısa Vade Borç" then some (netSatislarKisaVadeBorc r)
  else if c = "Esas Faaliyet Karı / Kısa Vadeli Borç" then some (esasFaaliyetKariKisaVadeliBorc r)
  else if c = "Aktif Karlılık (%)" then some (aktifKarlilik r)
  else if c = "ROCE Oranı" then some (roceOrani r)
  else if c = "Finansman Gider / Net Satış" then some (finansmanGiderNetSatis r)
  else if c = "Altman Z-Skoru" then some (altmanZSkoru r)
  else if c = "Zmijewski Skoru" then some (zmijewskiSkoru r)
  else if c = "L Model Skoru" then some (lModelSkoru r)
  else none

/-- The enriched row: each of the 32 ratio columns holds its derived
value, every other column is left exactly as in the input row, matching
the in-place column assignments of compute_ratios (no other column is
written). -/
def enrich (df : Row) (r : RawRecord) : Row :=
  fun c =>
    match derivedLookup r c with
    | some v => some v
    | none => df c

/-- compute_ratios (src/main.py lines 60-134): read the raw columns (the
first absent one raises KeyError for the whole operation) and append the
32 derived columns. -/
def compute_ratios (df : Row) : Except String Row := do
  let r ← readRaw df
  return enrich df r

/-- SELECTED_FEATS (src/main.py lines 29-43): the 32 feature columns, in
the source order, including the trailing space idiosyncrasy of
column 27. -/
def SELECTED_FEATS : List String :=
  ["Altman Z-Skoru", "Finansal Kaldıraç", "Nakit Oranı",
   "Aktif Devir Hızı", "L Model Skoru", "Zmijewski Skoru",
   "Asit Test Oranı", "Özsermaye / Maddi Duran Varlıklar",
   "Faaliyet Kar Marjı", "Duran Varlıklar / Maddi Özkaynak",
   "Ticari Borçlar Devir Hızı", "Stok Devir Hızı", "Brüt Kar Marjı (%)",
   "Cari Oran", "Esas Faaliyet Karı / Kısa Vadeli Borç",
   "Esas Faaliyet Kar Marjı", "Özsermaye / Aktif", "Alacak Devir Hızı",
   "Borç Kaynak Oranı", "Net Kar Marjı", "Net Satışlar / Kısa Vade Borç",
   "Kısa Vade Borç / Özsermaye", "Kısa Vade Borç / Toplam Borç",
   "Kısa Vade Borç / Aktif", "Kısa Vade Borç / Dönen Varlık",
   "FAVÖK / Kısa Vade Borç", "Duran Varlıklar / Aktif ",
   "Dönen Varlıklar / Aktif (%)", "Dönen Varlıklar Devir Hızı",
   "Aktif Karlılık (%)", "ROCE Oranı", "Finansman Gider / Net Satış"]

/-- A row survives the dropna filter (src/main.py lines 177-179) exactly
when every one of the 32 selected feature cells is present and
non-null. -/
def rowCompleteFeats (row : Row) : Bool :=
  SELECTED_FEATS.all fun c =>
    match row c with
    | some (some _) => true
    | _ => false

/-- The row-filtering stage: model_input.dropna keeps, in input order,
exactly the rows with no null among the 32 selected features. -/
def dropNullRows (t : List Row) : List Row :=
  t.filter rowCompleteFeats

/-- Ratio computation over a whole table, one row per firm/period; every
series operation of the source is elementwise, so the table computation
is the row computation applied to each row in order, and a missing
column fails the whole table. -/
def compute_ratios_table : List Row → Except String (List Row)
  | [] => Except.ok []
  | row :: t => do
      let outRow ← compute_ratios row
      let rest ← compute_ratios_table t
      return outRow :: rest

/-- A row built from a finite association list of columns; any other
column is absent. -/
def mkRow (kvs : List (String × NVal)) : Row := fun c => kvs.lookup c

/-- safe_div never returns a null cell: fillna(0) makes the result total. -/
theorem safe_div_total (a b : NVal) : ∃ q : ℚ, safe_div a b = some q :=
  ⟨_, rfl⟩

/-- A successful compute_ratios is exactly the enrichment of the input
row by the raw record it read. -/
theorem compute_ratios_ok_elim (df out : Row)
    (h : compute_ratios df = Except.ok out) :
    ∃ r : RawRecord, readRaw df = Except.ok r ∧ out = enrich df r := by
  unfold compute_ratios at h
  cases hrr : readRaw df with
  | error e => rw [hrr] at h; simp at h
  | ok r =>
    rw [hrr] at h
    simp only [pure, Except.pure, bind, Except.bind, Except.ok.injEq] at h
    exact ⟨r, rfl, h.symm⟩

/-- compute_ratios succeeds with the enriched row whenever all raw
columns are present. -/
theorem compute_ratios_ok_intro (df : Row) (r : RawRecord)
    (hrr : readRaw df = Except.ok r) :
    compute_ratios df = Except.ok (enrich df r) := by
  simp [compute_ratios, hrr]

/-- compute_ratios propagates the KeyError of a failed raw read. -/
theorem compute_ratios_error (df : Row) (e : String)
    (hrr : readRaw df = Except.error e) :
    compute_ratios df = Except.error e := by
  simp [compute_ratios, hrr]

/-- Every one of the 32 derived values is non-null, whatever the raw
record holds: each is built from safe_div outputs by negation, scaling,
addition and subtraction of non-null cells. -/
theorem derivedLookup_nonnull (r : RawRecord) (c : String)
    (hc : c ∈ SELECTED_FEATS) :
    ∃ q : ℚ, derivedLookup r c = some (some q) := by
  fin_cases hc <;>
    simp [derivedLookup, cariOran, asitTestOrani, nakitOrani, faaliyetKarMarji,
      esasFaaliyetKarMarji, brutKarMarji, netKarMarji, favokKisaVadeBorc,
      aktifDevirHizi, alacakDevirHizi, donenVarliklarDevirHizi,
      ticariBorclarDevirHizi, stokDevirHizi, borcKaynakOrani, finansalKaldirac,
      ozsermayeAktif, ozsermayeMaddiDuran, duranVarliklarMaddiOzkaynak,
      duranVarliklarAktif, donenVarliklarAktif, kisaVadeBorcAktif,
      kisaVadeBorcDonenVarlik, kisaVadeBorcOzsermaye, kisaVadeBorcToplamBorc,
      netSatislarKisaVadeBorc, esasFaaliyetKariKisaVadeliBorc, aktifKarlilik,
      roceOrani, finansmanGiderNetSatis, X1, X2, X3, X4, X5, altmanZSkoru,
      Z1, Z2, Z3, zmijewskiSkoru, L6, L7, lModelSkoru, safe_div, nneg, nmulC,
      nadd, nsub]

/-- Derived feature cells of an enriched row are present and non-null. -/
theorem enrich_nonnull (df : Row) (r : RawRecord) (c : String)
    (hc : c ∈ SELECTED_FEATS) :
    ∃ q : ℚ, enrich df r c = some (some q) := by
  obtain ⟨q, hq⟩ := derivedLookup_nonnull r c hc
  exact ⟨q, by simp [enrich, hq]⟩

/-- Enrichment leaves every column outside the 32 derived names exactly
as it was in the input row. -/
theorem enrich_not_feat (df : Row) (r : RawRecord) (c : String)
    (h : c ∉ SELECTED_FEATS) : enrich df r c = df c := by
  simp [SELECTED_FEATS, List.mem_cons, not_or] at h
  obtain ⟨h1, h2, h3, h4, h5, h6, h7, h8, h9, h10, h11, h12, h13, h14, h15,
    h16, h17, h18, h19, h20, h21, h22, h23, h24, h25, h26, h27, h28, h29,
    h30, h31, h32⟩ := h
  simp [enrich, derivedLookup, h1, h2, h3, h4, h5, h6, h7, h8, h9, h10, h11,
    h12, h13, h14, h15, h16, h17, h18, h19, h20, h21, h22, h23, h24, h25,
    h26, h27, h28, h29, h30, h31, h32]

/-- No raw field name is among the 32 derived column names, so the
engine never overwrites a column it reads. -/
theorem raw_not_feat (c : String) (hc : c ∈ rawFieldNames) :
    c ∉ SELECTED_FEATS := by
  fin_cases hc <;> decide

/-- Enrichment does not mutate the raw columns the engine reads. -/
theorem enrich_raw_unchanged (df : Row) (r : RawRecord) (c : String)
    (hc : c ∈ rawFieldNames) : enrich df r c = df c :=
  enrich_not_feat df r c (raw_not_feat c hc)

/-- On the 32 derived columns, the enriched value depends only on the
raw record, not on the rest of the row. -/
theorem enrich_feat_eq (df1 df2 : Row) (r : RawRecord) (c : String)
    (hc : c ∈ SELECTED_FEATS) : enrich df1 r c = enrich df2 r c := by
  obtain ⟨q, hq⟩ := derivedLookup_nonnull r c hc
  simp [enrich, hq]

/-- readRaw only looks at the raw field columns. -/
theorem readRaw_congr (df1 df2 : Row)
    (h : ∀ c ∈ rawFieldNames, df1 c = df2 c) :
    readRaw df1 = readRaw df2 := by
  have h1 := h "Dönen Varlıklar" (by simp [rawFieldNames])
  have h2 := h "Duran Varlıklar" (by simp [rawFieldNames])
  have h3 := h "Kısa Vadeli Yükümlülükler" (by simp [rawFieldNames])
  have h4 := h "Uzun Vadeli Yükümlülükler" (by simp [rawFieldNames])
  have h5 := h "Stoklar" (by simp [rawFieldNames])
  have h6 := h "Diğer Dönen Varlıklar" (by simp [rawFieldNames])
  have h7 := h "Nakit ve Nakit Benzerleri" (by simp [rawFieldNames])
  have h8 := h "FAALİYET KARI (ZARARI)" (by simp [rawFieldNames])
  have h9 := h "Satış Gelirleri" (by simp [rawFieldNames])
  have h10 := h "Net Faaliyet Kar/Zararı" (by simp [rawFieldNames])
  have h11 := h "Ticari Faaliyetlerden Brüt Kar (Zarar)" (by simp [rawFieldNames])
  have h12 := h "Dönem Net Kar/Zararı" (by simp [rawFieldNames])
  have h13 := h "Ticari Alacaklar" (by simp [rawFieldNames])
  have h14 := h "Satışların Maliyeti (-)" (by simp [rawFieldNames])
  have h15 := h "Ticari Borçlar" (by simp [rawFieldNames])
  have h16 := h "Toplam Özkaynaklar" (by simp [rawFieldNames])
  have h17 := h "Maddi Duran Varlıklar" (by simp [rawFieldNames])
  have h18 := h "Maddi Olmayan Duran Varlıklar" (by simp [rawFieldNames])
  have h19 := h "Geçmiş Yıllar Kar/Zararları" (by simp [rawFieldNames])
  have h20 := h "SÜRDÜRÜLEN FAALİYETLER VERGİ ÖNCESİ KARI (ZARARI)"
    (by simp [rawFieldNames])
  have h21 := h "Finansman Giderleri" (by simp [rawFieldNames])
  simp [readRaw, getCol, h1, h2, h3, h4, h5, h6, h7, h8, h9, h10, h11, h12,
    h13, h14, h15, h16, h17, h18, h19, h20, h21]

/-- The dropna keep-condition holds exactly when every selected feature
cell is present and non-null. -/
theorem rowCompleteFeats_iff (row : Row) :
    rowCompleteFeats row = true ↔
      ∀ c ∈ SELECTED_FEATS, ∃ q : ℚ, row c = some (some q) := by
  unfold rowCompleteFeats
  rw [List.all_eq_true]
  constructor
  · intro h c hc
    have := h c hc
    cases hcell : row c with
    | none => rw [hcell] at this; simp at this
    | some v =>
      cases v with
      | none => rw [hcell] at this; simp at this
      | some q => exact ⟨q, rfl⟩
  · intro h c hc
    obtain ⟨q, hq⟩ := h c hc
    simp [hq]

/-- Negating a null-safe quotient is the same as null-safe division of
the negated numerator: the sign flip commutes with safe_div. -/
theorem nneg_safe_div (a b : NVal) :
    nneg (safe_div a b) = safe_div (nneg a) b := by
  cases a with
  | none =>
    cases b with
    | none => simp [safe_div, nneg]
    | some d => simp [safe_div, nneg]
  | some n =>
    cases b with
    | none => simp [safe_div, nneg]
    | some d => by_cases hd : d = 0 <;> simp [safe_div, nneg, hd, neg_div]

/-- A complete sample raw record used to exercise the theorems: total
assets 100, total liabilities 60, with the sign convention of cost of
sales (a negative stored figure). -/
def sampleRec : RawRecord :=
  { donenVarliklar := some 60, duranVarliklar := some 40,
    kisaVadeliYuk := some 30, uzunVadeliYuk := some 30, stoklar := some 10,
    digerDonenVarliklar := some 5, nakit := some 8, faaliyetKari := some 12,
    satisGelirleri := some 200, netFaaliyetKar := some 11,
    brutKar := some 25, donemNetKar := some 5, ticariAlacaklar := some 20,
    satislarinMaliyeti := some (-100), ticariBorclar := some 50,
    toplamOzkaynaklar := some 40, maddiDuranVarliklar := some 30,
    maddiOlmayanDuran := some 2, gecmisYillarKar := some 7,
    surdurulenVergiOncesi := some 6, finansmanGiderleri := some 3 }

/-- The sample record as an input row with all 21 raw columns present. -/
def sampleRow : Row := mkRow
  [("Dönen Varlıklar", some 60), ("Duran Varlıklar", some 40),
   ("Kısa Vadeli Yükümlülükler", some 30),
   ("Uzun Vadeli Yükümlülükler", some 30), ("Stoklar", some 10),
   ("Diğer Dönen Varlıklar", some 5), ("Nakit ve Nakit Benzerleri", some 8),
   ("FAALİYET KARI (ZARARI)", some 12), ("Satış Gelirleri", some 200),
   ("Net Faaliyet Kar/Zararı", some 11),
   ("Ticari Faaliyetlerden Brüt Kar (Zarar)", some 25),
   ("Dönem Net Kar/Zararı", some 5), ("Ticari Alacaklar", some 20),
   ("Satışların Maliyeti (-)", some (-100)), ("Ticari Borçlar", some 50),
   ("Toplam Özkaynaklar", some 40), ("Maddi Duran Varlıklar", some 30),
   ("Maddi Olmayan Duran Varlıklar", some 2),
   ("Geçmiş Yıllar Kar/Zararları", some 7),
   ("SÜRDÜRÜLEN FAALİYETLER VERGİ ÖNCESİ KARI (ZARARI)", some 6),
   ("Finansman Giderleri", some 3)]

/-- Reading the sample row yields the sample record. -/
theorem readRaw_sample : readRaw sampleRow = Except.ok sampleRec := by rfl

/-- C1: the null-safe division primitive returns the true quotient for a
non-zero, non-null denominator, returns exactly 0 for a zero or null
denominator (for every numerator, including 0 and negative values), and
is total: it always returns a finite value, never null, infinity or an
exception, with no special case for negative zero. -/
theorem C1_safe_div_contract (n q : ℚ) :
    (q ≠ 0 → safe_div (some n) (some q) = some (n / q)) ∧
    safe_div (some n) (some 0) = some 0 ∧
    safe_div (some n) (none : NVal) = some 0 ∧
    ∀ num denom : NVal, ∃ v : ℚ, safe_div num denom = some v := by
  refine ⟨fun hq => ?_, ?_, ?_, fun num denom => ⟨_, rfl⟩⟩
  · simp [safe_div, hq]
  · simp [safe_div]
  · simp [safe_div]

/-- Witness for C1 at the concrete numerator -3 and denominators 2, 0
and null. -/
theorem C1_safe_div_contract_witness :
    safe_div (some (-3 : ℚ)) (some 2) = some (-3/2) ∧
    safe_div (some (-3 : ℚ)) (some 0) = some 0 ∧
    safe_div (some (-3 : ℚ)) (none : NVal) = some 0 :=
  ⟨by rw [(C1_safe_div_contract (-3) 2).1 (by norm_num)],
   (C1_safe_div_contract (-3) 0).2.1,
   (C1_safe_div_contract (-3) 0).2.2.1⟩

/-- The sample record with a null cost-of-sales cell: a null numerator
feeding the payables-turnover ratio while the denominator (trade
payables = 50) is present, non-null and non-zero. -/
def c2Rec : RawRecord :=
  { donenVarliklar := some 60, duranVarliklar := some 40,
    kisaVadeliYuk := some 30, uzunVadeliYuk := some 30, stoklar := some 10,
    digerDonenVarliklar := some 5, nakit := some 8, faaliyetKari := some 12,
    satisGelirleri := some 200, netFaaliyetKar := some 11,
    brutKar := some 25, donemNetKar := some 5, ticariAlacaklar := some 20,
    satislarinMaliyeti := none, ticariBorclar := some 50,
    toplamOzkaynaklar := some 40, maddiDuranVarliklar := some 30,
    maddiOlmayanDuran := some 2, gecmisYillarKar := some 7,
    surdurulenVergiOncesi := some 6, finansmanGiderleri := some 3 }

/-- The row of c2Rec: every raw column present, cost of sales null. -/
def c2Row : Row := mkRow
  [("Dönen Varlıklar", some 60), ("Duran Varlıklar", some 40),
   ("Kısa Vadeli Yükümlülükler", some 30),
   ("Uzun Vadeli Yükümlülükler", some 30), ("Stoklar", some 10),
   ("Diğer Dönen Varlıklar", some 5), ("Nakit ve Nakit Benzerleri", some 8),
   ("FAALİYET KARI (ZARARI)", some 12), ("Satış Gelirleri", some 200),
   ("Net Faaliyet Kar/Zararı", some 11),
   ("Ticari Faaliyetlerden Brüt Kar (Zarar)", some 25),
   ("Dönem Net Kar/Zararı", some 5), ("Ticari Alacaklar", some 20),
   ("Satışların Maliyeti (-)", none), ("Ticari Borçlar", some 50),
   ("Toplam Özkaynaklar", some 40), ("Maddi Duran Varlıklar", some 30),
   ("Maddi Olmayan Duran Varlıklar", some 2),
   ("Geçmiş Yıllar Kar/Zararları", some 7),
   ("SÜRDÜRÜLEN FAALİYETLER VERGİ ÖNCESİ KARI (ZARARI)", some 6),
   ("Finansman Giderleri", some 3)]

/-- Reading the C2 row yields the C2 record. -/
theorem readRaw_c2 : readRaw c2Row = Except.ok c2Rec := by rfl

/-- Counterexample to C2: in the row whose cost-of-sales raw value is
null while trade payables is the non-null, non-zero value 50, the
payables-turnover column of the computed output is 0, not null - the
fillna(0) at the end of safe_div converts the null quotient produced by
the null numerator to 0, so the null does NOT propagate to the ratio. -/
theorem C2_counterexample :
    c2Rec.satislarinMaliyeti = none ∧
    c2Rec.ticariBorclar = some 50 ∧
    readRaw c2Row = Except.ok c2Rec ∧
    compute_ratios c2Row =
      Except.ok (enrich c2Row c2Rec) ∧
    enrich c2Row c2Rec "Ticari Borçlar Devir Hızı" = some (some 0) ∧
    some (some (0 : ℚ)) ≠ (some (none : NVal)) := by
  refine ⟨rfl, rfl, readRaw_c2,
    compute_ratios_ok_intro c2Row c2Rec readRaw_c2, ?_, by simp⟩
  simp [enrich, derivedLookup, ticariBorclarDevirHizi, safe_div, nneg, c2Rec]

/-- C2 amended: a present-but-null numerator does NOT yield a null
ratio; safe_div ends in fillna(0), which converts every null quotient
to 0, whether the null came from the numerator or from a zero-or-null
denominator, so a null numerator over a non-zero, non-null denominator
produces the ratio 0. -/
theorem C2_amended_null_numerator (d : ℚ) (_hd : d ≠ 0) :
    safe_div (none : NVal) (some d) = some 0 ∧
    (∀ r : RawRecord, r.satislarinMaliyeti = none →
      ticariBorclarDevirHizi r = some 0) := by
  constructor
  · simp [safe_div]
  · intro r hr
    simp [ticariBorclarDevirHizi, safe_div, nneg, hr]

/-- Witness for the amended C2 at denominator 50 and the concrete C2
record. -/
theorem C2_amended_null_numerator_witness :
    safe_div (none : NVal) (some 50) = some 0 ∧
    ticariBorclarDevirHizi c2Rec = some 0 :=
  ⟨(C2_amended_null_numerator 50 (by norm_num)).1,
   (C2_amended_null_numerator 50 (by norm_num)).2 c2Rec rfl⟩

/-- C4: the Altman Z-score column of the computed output equals
1.2 X1 + 1.4 X2 + 3.3 X3 + 0.6 X4 + X5, where each Xi is the null-safe
division stated by the spec, total assets = current + fixed assets and
total liabilities = short-term + long-term liabilities. -/
theorem C4_altman_z (df out : Row) (r : RawRecord)
    (hr : readRaw df = Except.ok r)
    (h : compute_ratios df = Except.ok out) :
    out "Altman Z-Skoru" = some (nadd (nadd (nadd (nadd
      (nmulC (12/10) (safe_div (nsub r.donenVarliklar r.kisaVadeliYuk)
        (nadd r.donenVarliklar r.duranVarliklar)))
      (nmulC (14/10) (safe_div (nadd r.gecmisYillarKar r.donemNetKar)
        (nadd r.donenVarliklar r.duranVarliklar))))
      (nmulC (33/10) (safe_div r.surdurulenVergiOncesi
        (nadd r.donenVarliklar r.duranVarliklar))))
      (nmulC (6/10) (safe_div r.toplamOzkaynaklar
        (nadd r.kisaVadeliYuk r.uzunVadeliYuk))))
      (safe_div r.satisGelirleri
        (nadd r.donenVarliklar r.duranVarliklar))) := by
  rw [compute_ratios_ok_intro df r hr] at h
  obtain rfl : enrich df r = out := Except.ok.inj h
  simp [enrich, derivedLookup, altmanZSkoru, X1, X2, X3, X4, X5,
    total_assets, total_liab]

/-- Witness for C4 at the sample row: the Altman column evaluates to
3.126 = 1.2(0.3) + 1.4(0.12) + 3.3(0.06) + 0.6(2/3) + 2. -/
theorem C4_altman_z_witness :
    readRaw sampleRow = Except.ok sampleRec ∧
    enrich sampleRow sampleRec "Altman Z-Skoru" = some (some (1563/500)) := by
  refine ⟨readRaw_sample, ?_⟩
  rw [C4_altman_z sampleRow (enrich sampleRow sampleRec) sampleRec
    readRaw_sample
    (compute_ratios_ok_intro sampleRow sampleRec readRaw_sample)]
  norm_num [sampleRec, nadd, nsub, nmulC, safe_div]

/-- C5: the Zmijewski column of the computed output equals
-4.3 - 4.5 Z1 + 5.7 Z2 - 0.004 Z3 with Z1 = net income / total assets,
Z2 = total liabilities / total assets and Z3 = current assets /
short-term liabilities, each a null-safe division; and at Z1 = 0.05,
Z2 = 0.6, Z3 = 2.0 the score is exactly -1.113. -/
theorem C5_zmijewski (df out : Row) (r : RawRecord)
    (hr : readRaw df = Except.ok r)
    (h : compute_ratios df = Except.ok out) :
    (out "Zmijewski Skoru" = some (nsub (nadd (nsub (some (-43/10 : ℚ))
      (nmulC (45/10) (safe_div r.donemNetKar
        (nadd r.donenVarliklar r.duranVarliklar))))
      (nmulC (57/10) (safe_div (nadd r.kisaVadeliYuk r.uzunVadeliYuk)
        (nadd r.donenVarliklar r.duranVarliklar))))
      (nmulC (4/1000) (safe_div r.donenVarliklar r.kisaVadeliYuk)))) ∧
    (Z1 r = some (1/20) → Z2 r = some (3/5) → Z3 r = some 2 →
      out "Zmijewski Skoru" = some (some (-1113/1000))) := by
  rw [compute_ratios_ok_intro df r hr] at h
  obtain rfl : enrich df r = out := Except.ok.inj h
  constructor
  · simp [enrich, derivedLookup, zmijewskiSkoru, Z1, Z2, Z3,
      total_assets, total_liab]
  · intro hz1 hz2 hz3
    have h1 : enrich df r "Zmijewski Skoru" = some (zmijewskiSkoru r) := by
      simp [enrich, derivedLookup]
    rw [h1, zmijewskiSkoru, hz1, hz2, hz3]
    norm_num [nmulC, nadd, nsub]

/-- Witness for C5 at the sample row, whose intermediates are exactly
Z1 = 0.05, Z2 = 0.6, Z3 = 2.0; the score is -1.113. -/
theorem C5_zmijewski_witness :
    Z1 sampleRec = some (1/20) ∧ Z2 sampleRec = some (3/5) ∧
    Z3 sampleRec = some 2 ∧
    enrich sampleRow sampleRec "Zmijewski Skoru" =
      some (some (-1113/1000)) := by
  have hz1 : Z1 sampleRec = some (1/20) := by
    norm_num [Z1, total_assets, sampleRec, safe_div, nadd]
  have hz2 : Z2 sampleRec = some (3/5) := by
    norm_num [Z2, total_assets, total_liab, sampleRec, safe_div, nadd]
  have hz3 : Z3 sampleRec = some 2 := by
    norm_num [Z3, sampleRec, safe_div]
  exact ⟨hz1, hz2, hz3,
    (C5_zmijewski sampleRow (enrich sampleRow sampleRec) sampleRec
      readRaw_sample
      (compute_ratios_ok_intro sampleRow sampleRec readRaw_sample)).2
      hz1 hz2 hz3⟩

/-- C8: in the computed output, payables turnover is the null-safe
quotient of the negated cost of sales by trade payables, and inventory
turnover the null-safe quotient of the negated cost of sales by
inventories (the stored cost-of-sales figure is negative and the sign
is deliberately flipped); for cost of sales -100 and trade payables 50
the payables-turnover value is 2, not -2. -/
theorem C8_sign_flip (df out : Row) (r : RawRecord)
    (hr : readRaw df = Except.ok r)
    (h : compute_ratios df = Except.ok out) :
    out "Ticari Borçlar Devir Hızı" =
      some (safe_div (nneg r.satislarinMaliyeti) r.ticariBorclar) ∧
    out "Stok Devir Hızı" =
      some (safe_div (nneg r.satislarinMaliyeti) r.stoklar) ∧
    (r.satislarinMaliyeti = some (-100) → r.ticariBorclar = some 50 →
      out "Ticari Borçlar Devir Hızı" = some (some 2)) := by
  rw [compute_ratios_ok_intro df r hr] at h
  obtain rfl : enrich df r = out := Except.ok.inj h
  refine ⟨?_, ?_, ?_⟩
  · simp [enrich, derivedLookup, ticariBorclarDevirHizi, nneg_safe_div]
  · simp [enrich, derivedLookup, stokDevirHizi, nneg_safe_div]
  · intro hm hb
    have h1 : enrich df r "Ticari Borçlar Devir Hızı" =
        some (ticariBorclarDevirHizi r) := by
      simp [enrich, derivedLookup]
    rw [h1, ticariBorclarDevirHizi, hm, hb]
    norm_num [safe_div, nneg]

/-- Witness for C8 at the sample row, whose cost of sales is -100 and
trade payables 50: the payables-turnover column is the positive 2. -/
theorem C8_sign_flip_witness :
    sampleRec.satislarinMaliyeti = some (-100) ∧
    sampleRec.ticariBorclar = some 50 ∧
    enrich sampleRow sampleRec "Ticari Borçlar Devir Hızı" =
      some (some 2) :=
  ⟨rfl, rfl,
   (C8_sign_flip sampleRow (enrich sampleRow sampleRec) sampleRec
     readRaw_sample
     (compute_ratios_ok_intro sampleRow sampleRec readRaw_sample)).2.2
     rfl rfl⟩

/-- All 21 raw fields are present with non-null values. -/
def rawComplete (r : RawRecord) : Bool :=
  r.donenVarliklar.isSome && r.duranVarliklar.isSome &&
  r.kisaVadeliYuk.isSome && r.uzunVadeliYuk.isSome && r.stoklar.isSome &&
  r.digerDonenVarliklar.isSome && r.nakit.isSome &&
  r.faaliyetKari.isSome && r.satisGelirleri.isSome &&
  r.netFaaliyetKar.isSome && r.brutKar.isSome && r.donemNetKar.isSome &&
  r.ticariAlacaklar.isSome && r.satislarinMaliyeti.isSome &&
  r.ticariBorclar.isSome && r.toplamOzkaynaklar.isSome &&
  r.maddiDuranVarliklar.isSome && r.maddiOlmayanDuran.isSome &&
  r.gecmisYillarKar.isSome && r.surdurulenVergiOncesi.isSome &&
  r.finansmanGiderleri.isSome

/-- The all-zero record: complete (no nulls) but with every denominator,
including short-term liabilities, total assets, total liabilities and
total equity minus intangibles, equal to zero. -/
def zeroRec : RawRecord :=
  { donenVarliklar := some 0, duranVarliklar := some 0,
    kisaVadeliYuk := some 0, uzunVadeliYuk := some 0, stoklar := some 0,
    digerDonenVarliklar := some 0, nakit := some 0, faaliyetKari := some 0,
    satisGelirleri := some 0, netFaaliyetKar := some 0, brutKar := some 0,
    donemNetKar := some 0, ticariAlacaklar := some 0,
    satislarinMaliyeti := some 0, ticariBorclar := some 0,
    toplamOzkaynaklar := some 0, maddiDuranVarliklar := some 0,
    maddiOlmayanDuran := some 0, gecmisYillarKar := some 0,
    surdurulenVergiOncesi := some 0, finansmanGiderleri := some 0 }

/-- The all-zero record as an input row. -/
def zeroRow : Row := mkRow (rawFieldNames.map (fun n => (n, some 0)))

/-- Reading the all-zero row yields the all-zero record. -/
theorem readRaw_zero : readRaw zeroRow = Except.ok zeroRec := by rfl

/-- C3: for a complete raw record (all fields present, none null), every
one of the 32 derived ratio columns of the computed output is a finite,
non-null rational for the row, even when denominators such as short-term
liabilities, total assets, total liabilities or total equity minus
intangible fixed assets are zero. -/
theorem C3_complete_records_finite (df out : Row) (r : RawRecord)
    (hr : readRaw df = Except.ok r) (_hcomp : rawComplete r = true)
    (h : compute_ratios df = Except.ok out) :
    ∀ c ∈ SELECTED_FEATS, ∃ q : ℚ, out c = some (some q) := by
  rw [compute_ratios_ok_intro df r hr] at h
  obtain rfl : enrich df r = out := Except.ok.inj h
  exact fun c hc => enrich_nonnull df r c hc

/-- Witness for C3 at the all-zero row, where every denominator the
claim names is zero; all 32 columns are still non-null finite values. -/
theorem C3_complete_records_finite_witness :
    readRaw zeroRow = Except.ok zeroRec ∧ rawComplete zeroRec = true ∧
    zeroRec.kisaVadeliYuk = some 0 ∧
    ∀ c ∈ SELECTED_FEATS, ∃ q : ℚ, enrich zeroRow zeroRec c =
      some (some q) := by
  refine ⟨readRaw_zero, by rfl, rfl, ?_⟩
  exact C3_complete_records_finite zeroRow (enrich zeroRow zeroRec) zeroRec
    readRaw_zero (by rfl)
    (compute_ratios_ok_intro zeroRow zeroRec readRaw_zero)

/-- A row in which every column is present with the non-null value 1. -/
def allOnesRow : Row := fun _ => some (some 1)

/-- C6: the filtering stage outputs at most as many rows as it gets, the
surviving rows are a sublist of the input (same order, same row
identity, no imputation), and, provided each row carries the 32 selected
columns, a row is kept exactly when all 32 selected values are non-null,
that is, dropped exactly when at least one of them is null. -/
theorem C6_row_filtering (t : List Row)
    (hpres : ∀ row ∈ t, ∀ c ∈ SELECTED_FEATS, ∃ v : NVal, row c = some v) :
    (dropNullRows t).length ≤ t.length ∧
    (dropNullRows t).Sublist t ∧
    (∀ row ∈ t, (row ∈ dropNullRows t ↔
      ∀ c ∈ SELECTED_FEATS, ∃ q : ℚ, row c = some (some q))) ∧
    (∀ row ∈ t, (row ∉ dropNullRows t ↔
      ∃ c ∈ SELECTED_FEATS, row c = some none)) := by
  refine ⟨List.length_filter_le _ t, List.filter_sublist t, ?_, ?_⟩
  · intro row hrow
    constructor
    · intro hmem
      rw [dropNullRows, List.mem_filter] at hmem
      exact (rowCompleteFeats_iff row).mp hmem.2
    · intro hall
      rw [dropNullRows, List.mem_filter]
      exact ⟨hrow, (rowCompleteFeats_iff row).mpr hall⟩
  · intro row hrow
    constructor
    · intro hnot
      have hcf : rowCompleteFeats row = false := by
        cases hb : rowCompleteFeats row with
        | true => exact absurd (List.mem_filter.mpr ⟨hrow, hb⟩) hnot
        | false => rfl
      have hnall : ¬ ∀ c ∈ SELECTED_FEATS, ∃ q : ℚ,
          row c = some (some q) := by
        rw [← rowCompleteFeats_iff, hcf]
        simp
      push_neg at hnall
      obtain ⟨c, hc, hq⟩ := hnall
      obtain ⟨v, hv⟩ := hpres row hrow c hc
      cases v with
      | none => exact ⟨c, hc, hv⟩
      | some q => exact (hq q hv).elim
    · rintro ⟨c, hc, hnull⟩ hmem
      rw [dropNullRows, List.mem_filter] at hmem
      obtain ⟨q, hq⟩ := (rowCompleteFeats_iff row).mp hmem.2 c hc
      rw [hnull] at hq
      simp at hq

/-- Witness for C6 at a one-row table whose cells are all present. -/
theorem C6_row_filtering_witness :
    (dropNullRows [allOnesRow]).length ≤ [allOnesRow].length ∧
    (dropNullRows [allOnesRow]).Sublist [allOnesRow] := by
  have hpres : ∀ row ∈ [allOnesRow], ∀ c ∈ SELECTED_FEATS,
      ∃ v : NVal, row c = some v := by
    intro row hrow c _
    rcases List.mem_singleton.mp hrow with rfl
    exact ⟨some 1, rfl⟩
  exact ⟨(C6_row_filtering [allOnesRow] hpres).1,
    (C6_row_filtering [allOnesRow] hpres).2.1⟩

set_option maxHeartbeats 1000000 in
/-- C7: a table missing at least one required raw column makes the whole
ratio computation fail: no output table of ratio columns is produced at
all, and the failure is the KeyError naming one specific missing raw
field - a message distinguishable per missing field, not a generic
failure. -/
theorem C7_missing_field_fatal (df : Row)
    (hmiss : ∃ c ∈ rawFieldNames, df c = none) :
    ∃ c ∈ rawFieldNames, df c = none ∧
      compute_ratios df = Except.error ("KeyError: " ++ c) ∧
      ∀ out : Row, compute_ratios df ≠ Except.ok out := by
  cases h1 : df "Dönen Varlıklar" with
  | none =>
    have herr : compute_ratios df =
        Except.error ("KeyError: " ++ "Dönen Varlıklar") := by
      simp [compute_ratios, readRaw, getCol, bind, Except.bind, Functor.map, Except.map, h1]
    exact ⟨"Dönen Varlıklar", by simp [rawFieldNames], h1, herr, by simp [herr]⟩
  | some v1 =>
  cases h2 : df "Duran Varlıklar" with
  | none =>
    have herr : compute_ratios df =
        Except.error ("KeyError: " ++ "Duran Varlıklar") := by
      simp [compute_ratios, readRaw, getCol, bind, Except.bind, Functor.map, Except.map, h1, h2]
    exact ⟨"Duran Varlıklar", by simp [rawFieldNames], h2, herr, by simp [herr]⟩
  | some v2 =>
  cases h3 : df "Kısa Vadeli Yükümlülükler" with
  | none =>
    have herr : compute_ratios df =
        Except.error ("KeyError: " ++ "Kısa Vadeli Yükümlülükler") := by
      simp [compute_ratios, readRaw, getCol, bind, Except.bind, Functor.map, Except.map, h1, h2, h3]
    exact ⟨"Kısa Vadeli Yükümlülükler", by simp [rawFieldNames], h3, herr, by simp [herr]⟩
  | some v3 =>
  cases h4 : df "Uzun Vadeli Yükümlülükler" with
  | none =>
    have herr : compute_ratios df =
        Except.error ("KeyError: " ++ "Uzun Vadeli Yükümlülükler") := by
      simp [compute_ratios, readRaw, getCol, bind, Except.bind, Functor.map, Except.map, h1, h2, h3, h4]
    exact ⟨"Uzun Vadeli Yükümlülükler", by simp [rawFieldNames], h4, herr, by simp [herr]⟩
  | some v4 =>
  cases h5 : df "Stoklar" with
  | none =>
    have herr : compute_ratios df =
        Except.error ("KeyError: " ++ "Stoklar") := by
      simp [compute_ratios, readRaw, getCol, bind, Except.bind, Functor.map, Except.map, h1, h2, h3, h4, h5]
    exact ⟨"Stoklar", by simp [rawFieldNames], h5, herr, by simp [herr]⟩
  | some v5 =>
  cases h6 : df "Diğer Dönen Varlıklar" with
  | none =>
    have herr : compute_ratios df =
        Except.error ("KeyError: " ++ "Diğer Dönen Varlıklar") := by
      simp [compute_ratios, readRaw, getCol, bind, Except.bind, Functor.map, Except.map, h1, h2, h3, h4, h5, h6]
    exact ⟨"Diğer Dönen Varlıklar", by simp [rawFieldNames], h6, herr, by simp [herr]⟩
  | some v6 =>
  cases h7 : df "Nakit ve Nakit Benzerleri" with
  | none =>
    have herr : compute_ratios df =
        Except.error ("KeyError: " ++ "Nakit ve Nakit Benzerleri") := by
      simp [compute_ratios, readRaw, getCol, bind, Except.bind, Functor.map, Except.map, h1, h2, h3, h4, h5, h6, h7]
    exact ⟨"Nakit ve Nakit Benzerleri", by simp [rawFieldNames], h7, herr, by simp [herr]⟩
  | some v7 =>
  cases h8 : df "FAALİYET KARI (ZARARI)" with
  | none =>
    have herr : compute_ratios df =
        Except.error ("KeyError: " ++ "FAALİYET KARI (ZARARI)") := by
      simp [compute_ratios, readRaw, getCol, bind, Except.bind, Functor.map, Except.map, h1, h2, h3, h4, h5, h6, h7, h8]
    exact ⟨"FAALİYET KARI (ZARARI)", by simp [rawFieldNames], h8, herr, by simp [herr]⟩
  | some v8 =>
  cases h9 : df "Satış Gelirleri" with
  | none =>
    have herr : compute_ratios df =
        Except.error ("KeyError: " ++ "Satış Gelirleri") := by
      simp [compute_ratios, readRaw, getCol, bind, Except.bind, Functor.map, Except.map, h1, h2, h3, h4, h5, h6, h7, h8, h9]
    exact ⟨"Satış Gelirleri", by simp [rawFieldNames], h9, herr, by simp [herr]⟩
  | some v9 =>
  cases h10 : df "Net Faaliyet Kar/Zararı" with
  | none =>
    have herr : compute_ratios df =
        Except.error ("KeyError: " ++ "Net Faaliyet Kar/Zararı") := by
      simp [compute_ratios, readRaw, getCol, bind, Except.bind, Functor.map, Except.map, h1, h2, h3, h4, h5, h6, h7, h8, h9, h10]
    exact ⟨"Net Faaliyet Kar/Zararı", by simp [rawFieldNames], h10, herr, by simp [herr]⟩
  | some v10 =>
  cases h11 : df "Ticari Faaliyetlerden Brüt Kar (Zarar)" with
  | none =>
    have herr : compute_ratios df =
        Except.error ("KeyError: " ++ "Ticari Faaliyetlerden Brüt Kar (Zarar)") := by
      simp [compute_ratios, readRaw, getCol, bind, Except.bind, Functor.map, Except.map, h1, h2, h3, h4, h5, h6, h7, h8, h9, h10, h11]
    exact ⟨"Ticari Faaliyetlerden Brüt Kar (Zarar)", by simp [rawFieldNames], h11, herr, by simp [herr]⟩
  | some v11 =>
  cases h12 : df "Dönem Net Kar/Zararı" with
  | none =>
    have herr : compute_ratios df =
        Except.error ("KeyError: " ++ "Dönem Net Kar/Zararı") := by
      simp [compute_ratios, readRaw, getCol, bind, Except.bind, Functor.map, Except.map, h1, h2, h3, h4, h5, h6, h7, h8, h9, h10, h11, h12]
    exact ⟨"Dönem Net Kar/Zararı", by simp [rawFieldNames], h12, herr, by simp [herr]⟩
  | some v12 =>
  cases h13 : df "Ticari Alacaklar" with
  | none =>
    have herr : compute_ratios df =
        Except.error ("KeyError: " ++ "Ticari Alacaklar") := by
      simp [compute_ratios, readRaw, getCol, bind, Except.bind, Functor.map, Except.map, h1, h2, h3, h4, h5, h6, h7, h8, h9, h10, h11, h12, h13]
    exact ⟨"Ticari Alacaklar", by simp [rawFieldNames], h13, herr, by simp [herr]⟩
  | some v13 =>
  cases h14 : df "Satışların Maliyeti (-)" with
  | none =>
    have herr : compute_ratios df =
        Except.error ("KeyError: " ++ "Satışların Maliyeti (-)") := by
      simp [compute_ratios, readRaw, getCol, bind, Except.bind, Functor.map, Except.map, h1, h2, h3, h4, h5, h6, h7, h8, h9, h10, h11, h12, h13, h14]
    exact ⟨"Satışların Maliyeti (-)", by simp [rawFieldNames], h14, herr, by simp [herr]⟩
  | some v14 =>
  cases h15 : df "Ticari Borçlar" with
  | none =>
    have herr : compute_ratios df =
        Except.error ("KeyError: " ++ "Ticari Borçlar") := by
      simp [compute_ratios, readRaw, getCol, bind, Except.bind, Functor.map, Except.map, h1, h2, h3, h4, h5, h6, h7, h8, h9, h10, h11, h12, h13, h14, h15]
    exact ⟨"Ticari Borçlar", by simp [rawFieldNames], h15, herr, by simp [herr]⟩
  | some v15 =>
  cases h16 : df "Toplam Özkaynaklar" with
  | none =>
    have herr : compute_ratios df =
        Except.error ("KeyError: " ++ "Toplam Özkaynaklar") := by
      simp [compute_ratios, readRaw, getCol, bind, Except.bind, Functor.map, Except.map, h1, h2, h3, h4, h5, h6, h7, h8, h9, h10, h11, h12, h13, h14, h15, h16]
    exact ⟨"Toplam Özkaynaklar", by simp [rawFieldNames], h16, herr, by simp [herr]⟩
  | some v16 =>
  cases h17 : df "Maddi Duran Varlıklar" with
  | none =>
    have herr : compute_ratios df =
        Except.error ("KeyError: " ++ "Maddi Duran Varlıklar") := by
      simp [compute_ratios, readRaw, getCol, bind, Except.bind, Functor.map, Except.map, h1, h2, h3, h4, h5, h6, h7, h8, h9, h10, h11, h12, h13, h14, h15, h16, h17]
    exact ⟨"Maddi Duran Varlıklar", by simp [rawFieldNames], h17, herr, by simp [herr]⟩
  | some v17 =>
  cases h18 : df "Maddi Olmayan Duran Varlıklar" with
  | none =>
    have herr : compute_ratios df =
        Except.error ("KeyError: " ++ "Maddi Olmayan Duran Varlıklar") := by
      simp [compute_ratios, readRaw, getCol, bind, Except.bind, Functor.map, Except.map, h1, h2, h3, h4, h5, h6, h7, h8, h9, h10, h11, h12, h13, h14, h15, h16, h17, h18]
    exact ⟨"Maddi Olmayan Duran Varlıklar", by simp [rawFieldNames], h18, herr, by simp [herr]⟩
  | some v18 =>
  cases h19 : df "Geçmiş Yıllar Kar/Zararları" with
  | none =>
    have herr : compute_ratios df =
        Except.error ("KeyError: " ++ "Geçmiş Yıllar Kar/Zararları") := by
      simp [compute_ratios, readRaw, getCol, bind, Except.bind, Functor.map, Except.map, h1, h2, h3, h4, h5, h6, h7, h8, h9, h10, h11, h12, h13, h14, h15, h16, h17, h18, h19]
    exact ⟨"Geçmiş Yıllar Kar/Zararları", by simp [rawFieldNames], h19, herr, by simp [herr]⟩
  | some v19 =>
  cases h20 : df "SÜRDÜRÜLEN FAALİYETLER VERGİ ÖNCESİ KARI (ZARARI)" with
  | none =>
    have herr : compute_ratios df =
        Except.error ("KeyError: " ++ "SÜRDÜRÜLEN FAALİYETLER VERGİ ÖNCESİ KARI (ZARARI)") := by
      simp [compute_ratios, readRaw, getCol, bind, Except.bind, Functor.map, Except.map, h1, h2, h3, h4, h5, h6, h7, h8, h9, h10, h11, h12, h13, h14, h15, h16, h17, h18, h19, h20]
    exact ⟨"SÜRDÜRÜLEN FAALİYETLER VERGİ ÖNCESİ KARI (ZARARI)", by simp [rawFieldNames], h20, herr, by simp [herr]⟩
  | some v20 =>
  cases h21 : df "Finansman Giderleri" with
  | none =>
    have herr : compute_ratios df =
        Except.error ("KeyError: " ++ "Finansman Giderleri") := by
      simp [compute_ratios, readRaw, getCol, bind, Except.bind, Functor.map, Except.map, h1, h2, h3, h4, h5, h6, h7, h8, h9, h10, h11, h12, h13, h14, h15, h16, h17, h18, h19, h20, h21]
    exact ⟨"Finansman Giderleri", by simp [rawFieldNames], h21, herr, by simp [herr]⟩
  | some v21 =>
  obtain ⟨c, hc, hnone⟩ := hmiss
  fin_cases hc <;> simp_all

/-- A row with every raw column present except inventories. -/
def missingStokRow : Row := mkRow
  [("Dönen Varlıklar", some 60), ("Duran Varlıklar", some 40),
   ("Kısa Vadeli Yükümlülükler", some 30),
   ("Uzun Vadeli Yükümlülükler", some 30),
   ("Diğer Dönen Varlıklar", some 5), ("Nakit ve Nakit Benzerleri", some 8),
   ("FAALİYET KARI (ZARARI)", some 12), ("Satış Gelirleri", some 200),
   ("Net Faaliyet Kar/Zararı", some 11),
   ("Ticari Faaliyetlerden Brüt Kar (Zarar)", some 25),
   ("Dönem Net Kar/Zararı", some 5), ("Ticari Alacaklar", some 20),
   ("Satışların Maliyeti (-)", some (-100)), ("Ticari Borçlar", some 50),
   ("Toplam Özkaynaklar", some 40), ("Maddi Duran Varlıklar", some 30),
   ("Maddi Olmayan Duran Varlıklar", some 2),
   ("Geçmiş Yıllar Kar/Zararları", some 7),
   ("SÜRDÜRÜLEN FAALİYETLER VERGİ ÖNCESİ KARI (ZARARI)", some 6),
   ("Finansman Giderleri", some 3)]

/-- Witness for C7 at a row missing the inventories column. -/
theorem C7_missing_field_fatal_witness :
    (∃ c ∈ rawFieldNames, missingStokRow c = none) ∧
    ∃ c ∈ rawFieldNames, missingStokRow c = none ∧
      compute_ratios missingStokRow = Except.error ("KeyError: " ++ c) ∧
      ∀ out : Row, compute_ratios missingStokRow ≠ Except.ok out := by
  have hmiss : ∃ c ∈ rawFieldNames, missingStokRow c = none :=
    ⟨"Stoklar", by simp [rawFieldNames], by rfl⟩
  exact ⟨hmiss, C7_missing_field_fatal missingStokRow hmiss⟩

/-- C9: the engine is idempotent: running compute_ratios on an output of
compute_ratios succeeds and produces exactly the same values in each of
the 32 derived columns, because the engine reads only raw-field columns,
which it never overwrites. -/
theorem C9_idempotent (df out : Row)
    (h : compute_ratios df = Except.ok out) :
    ∃ out2 : Row, compute_ratios out = Except.ok out2 ∧
      ∀ c ∈ SELECTED_FEATS, out2 c = out c := by
  obtain ⟨r, hr, rfl⟩ := compute_ratios_ok_elim df out h
  have hrr2 : readRaw (enrich df r) = Except.ok r := by
    rw [readRaw_congr (enrich df r) df
      (fun c hc => enrich_raw_unchanged df r c hc)]
    exact hr
  exact ⟨enrich (enrich df r) r, compute_ratios_ok_intro _ r hrr2,
    fun c hc => enrich_feat_eq (enrich df r) df r c hc⟩

/-- Witness for C9 at the sample row. -/
theorem C9_idempotent_witness :
    compute_ratios sampleRow = Except.ok (enrich sampleRow sampleRec) ∧
    ∃ out2 : Row, compute_ratios (enrich sampleRow sampleRec) =
        Except.ok out2 ∧
      ∀ c ∈ SELECTED_FEATS, out2 c = enrich sampleRow sampleRec c :=
  ⟨compute_ratios_ok_intro sampleRow sampleRec readRaw_sample,
   C9_idempotent sampleRow (enrich sampleRow sampleRec)
     (compute_ratios_ok_intro sampleRow sampleRec readRaw_sample)⟩

/-- C10: whenever all raw columns are present (their values may be
null), every one of the 32 derived columns of every output row is a
non-null finite value - fillna(0) turns every null quotient into 0 and
the columns are built from safe_div outputs by negation, scaling and
addition - so the null-row-dropping step removes no rows, and the
surviving table is empty only when the input table itself has zero
rows. -/
theorem C10_no_null_derived (t out : List Row)
    (h : compute_ratios_table t = Except.ok out) :
    (∀ row ∈ out, ∀ c ∈ SELECTED_FEATS, ∃ q : ℚ, row c = some (some q)) ∧
    dropNullRows out = out ∧
    (dropNullRows out = [] ↔ t = []) := by
  induction t generalizing out with
  | nil =>
    simp [compute_ratios_table] at h
    subst h
    simp [dropNullRows]
  | cons row t ih =>
    unfold compute_ratios_table at h
    cases hrow : compute_ratios row with
    | error e =>
      rw [hrow] at h
      simp [bind, Except.bind, Functor.map, Except.map] at h
    | ok outRow =>
      rw [hrow] at h
      cases htab : compute_ratios_table t with
      | error e =>
        rw [htab] at h
        simp [bind, Except.bind, Functor.map, Except.map] at h
      | ok rest =>
        rw [htab] at h
        simp only [bind, Except.bind, pure, Except.pure, Functor.map,
          Except.map, Except.ok.injEq] at h
        subst h
        obtain ⟨hall, hdrop, hempty⟩ := ih rest htab
        obtain ⟨r, hr, rfl⟩ := compute_ratios_ok_elim row outRow hrow
        have hrownn : ∀ c ∈ SELECTED_FEATS, ∃ q : ℚ,
            enrich row r c = some (some q) :=
          fun c hc => enrich_nonnull row r c hc
        have hkeep : rowCompleteFeats (enrich row r) = true :=
          (rowCompleteFeats_iff (enrich row r)).mpr hrownn
        refine ⟨?_, ?_, ?_⟩
        · intro row2 hrow2
          rcases List.mem_cons.mp hrow2 with heq | hmem
          · subst heq; exact hrownn
          · exact hall row2 hmem
        · rw [dropNullRows, List.filter_cons_of_pos hkeep]
          rw [dropNullRows] at hdrop
          rw [hdrop]
        · rw [dropNullRows, List.filter_cons_of_pos hkeep]
          simp

/-- Witness for C10 at the one-row table of the sample row. -/
theorem C10_no_null_derived_witness :
    compute_ratios_table [sampleRow] =
      Except.ok [enrich sampleRow sampleRec] ∧
    dropNullRows [enrich sampleRow sampleRec] =
      [enrich sampleRow sampleRec] ∧
    (dropNullRows [enrich sampleRow sampleRec] = [] ↔
      ([sampleRow] : List Row) = []) := by
  have htab : compute_ratios_table [sampleRow] =
      Except.ok [enrich sampleRow sampleRec] := by
    rw [compute_ratios_table,
      compute_ratios_ok_intro sampleRow sampleRec readRaw_sample,
      compute_ratios_table]
    rfl
  have hc := C10_no_null_derived [sampleRow] [enrich sampleRow sampleRec]
    htab
  exact ⟨htab, hc.2.1, hc.2.2⟩

end AuditApp
